import Mathlib

/-!
A shallow embedding of `src/cli.py`, the command-line front end of the
strikeout-projection tool, together with theorems settling the frozen
claims about it.

Modelling conventions:
* A Python dict crossing the engine boundary is an association list
  `List (String × Val)`; the engine produces unique keys, and lookup takes
  the first match.
* Numeric values are exact rationals.  Python floats are dyadic rationals,
  and `"%.1f"` formatting rounds the exact stored value half-to-even, so
  one-decimal formatting of a rational agrees with CPython on every float
  input (the sign of a negative zero is not modelled; no claim touches it).
* Python exceptions are an inductive type split the way Python 3's class
  hierarchy splits them: only `PyExc.exc` values are instances of
  `Exception`; `KeyboardInterrupt`, `SystemExit` and (since Python 3.8)
  `asyncio.CancelledError` derive from `BaseException` directly, so an
  `except Exception` clause does not catch them.
* The awaited external call `auto_project_strikeouts` is not part of the
  repository; it enters the model as a parameter that either returns an
  optional dict or raises, which is the whole interface the CLI sees.
* Logging with the configured format string `"%(levelname)s: %(message)s"`
  turns `logging.error(m)` into the line `"ERROR: " ++ m`; logs, printed
  output and the points where side effects happen are collected in trace
  records.
-/

namespace StrikeoutCli

/-- A value stored in the projection-result dict: a string or a number. -/
inductive Val where
  | str (s : String)
  | num (q : Rat)
deriving DecidableEq

/-- The projection result mapping produced by the external engine. -/
abbrev Dict := List (String × Val)

/-- Python dict lookup, `d[k]` / `d.get(k)`: first binding of the key. -/
def dlookup : Dict → String → Option Val
  | [], _ => none
  | (k, v) :: rest, key => if k = key then some v else dlookup rest key

/-- The number of tenths in `q`, rounding ties to even — the rounding
CPython's fixed-point float formatting applies to the exact stored value.
Computed on the numerator and denominator directly: with `n = 10·num` and
`d = den`, `f = ⌊n/d⌋` and remainder `r = n - f·d`, the half-way comparison
is `2r` against `d`. -/
def roundTenthsHalfEven (q : Rat) : Int :=
  let d : Int := (q.den : Int)
  let n : Int := q.num * 10
  let f : Int := n.fdiv d
  let r : Int := n - f * d
  if 2 * r < d then f
  else if d < 2 * r then f + 1
  else if f % 2 = 0 then f else f + 1

/-- Render a nonnegative number of tenths as a one-decimal string. -/
def fmtTenths (m : Nat) : String :=
  toString (m / 10) ++ "." ++ toString (m % 10)

/-- Python's `f"{q:.1f}"` on the exact value `q`.  Floats are exact dyadic
rationals and the format rounds the stored value half-to-even, so this
agrees with CPython on every float input (a negative zero's sign is not
modelled; no claim touches one). -/
def fmtFixed1 (q : Rat) : String :=
  let n := roundTenthsHalfEven q
  if n < 0 then "-" ++ fmtTenths n.natAbs else fmtTenths n.natAbs

/-- Decimal digits of the fractional remainder `rem/d`, fuelled; float
values always terminate well inside the fuel. -/
def fracDigits : Nat → Nat → Nat → String
  | 0, _, _ => ""
  | fuel + 1, rem, d =>
    if rem = 0 then ""
    else toString (rem * 10 / d) ++ fracDigits fuel (rem * 10 % d) d

/-- Python's `str()` of a float value given exactly. -/
def pyStrNum (q : Rat) : String :=
  let sign := if q.num < 0 then "-" else ""
  let a := q.num.natAbs
  let d := q.den
  sign ++ toString (a / d) ++ "."
    ++ (if a % d = 0 then "0" else fracDigits 60 (a % d) d)

/-- Python's `str()` of a dict value, as an f-string interpolates it. -/
def pyStr : Val → String
  | .str s => s
  | .num q => pyStrNum q

/-- An exception raised while formatting a result dict. -/
inductive PyErr where
  | keyError (key : String)
  | typeError (msg : String)
deriving DecidableEq

/-- Python's `str(e)`: `str(KeyError('k'))` is `"'k'"`. -/
def PyErr.message : PyErr → String
  | .keyError k => "'" ++ k ++ "'"
  | .typeError m => m

/-- The fixed warning returned for an absent or empty result
(`src/cli.py` line 33; U+26A0 U+FE0F then the text). -/
def noProjection : String := "⚠️ No projection available"

/-- The error message CPython gives when a `:.1f` format spec is applied to
a non-numeric value. -/
def badFormatMsg : String := "unsupported format string passed to str.__format__"

/-- The `output` list built by `format_result` for a non-falsy dict
(`src/cli.py` lines 35-42), once the required lookups `p = result['pitcher']`,
`o = result['opponent']`, `mean = result['mean']` and the optional
`prob = result.get('prob_over_6.5', 0)` have succeeded. -/
def outputLines (result : Dict) (p o : Val) (mean prob : Rat) : List String :=
  [ "\n=== " ++ pyStr p ++ " vs " ++ pyStr o ++ " ===",
    "Projected Ks: " ++ fmtFixed1 mean,
    "Vegas Line: " ++ (match dlookup result "vegas_line" with
                       | some v => pyStr v
                       | none => "N/A"),
    "Edge: " ++ (match dlookup result "edge" with
                 | some v => pyStr v
                 | none => "N/A"),
    "Over 6.5 Probability: " ++ fmtFixed1 prob ++ "%",
    "Key Stats: " ++ (match dlookup result "lineup_source" with
                      | some v => pyStr v
                      | none => "Lineup source unknown") ]

/-- Building the `output` list for a non-falsy dict, with the Python
exceptions it can raise: `result['pitcher']`, `result['opponent']` and
`result['mean']` raise `KeyError` when absent (in that evaluation order),
and a `:.1f` spec applied to a string raises at formatting time.
`result.get('prob_over_6.5', 0)` substitutes `0` when absent. -/
def format_output (result : Dict) : Except PyErr (List String) :=
  match dlookup result "pitcher" with
  | none => .error (.keyError "pitcher")
  | some p =>
    match dlookup result "opponent" with
    | none => .error (.keyError "opponent")
    | some o =>
      match dlookup result "mean" with
      | none => .error (.keyError "mean")
      | some (.str _) => .error (.typeError badFormatMsg)
      | some (.num mean) =>
        match dlookup result "prob_over_6.5" with
        | some (.str _) => .error (.typeError badFormatMsg)
        | some (.num prob) => .ok (outputLines result p o mean prob)
        | none => .ok (outputLines result p o mean 0)

/-- `format_result` (`src/cli.py` lines 30-43).  `if not result` is true both
for `None` and for an empty dict; otherwise the field lines are joined with
`"\n".join(output)`. -/
def format_result : Option Dict → Except PyErr String
  | none => .ok noProjection
  | some d =>
    if d.isEmpty then .ok noProjection
    else (format_output d).map (String.intercalate "\n")

/-- Whether an `Except` computation finished without raising. -/
def exceptOk : {ε α : Type} → Except ε α → Bool
  | _, _, .ok _ => true
  | _, _, .error _ => false

/-- Whether a formatting outcome is a raised `KeyError` on one of the three
required keys. -/
def requiredKeyError : Except PyErr String → Bool
  | .error (.keyError k) => k == "pitcher" || k == "opponent" || k == "mean"
  | _ => false

/-- The line list of a successful formatting run (empty on failure). -/
def outputOf (d : Dict) : List String := (format_output d).toOption.getD []

/-- A Python exception reaching the CLI's handlers, split the way Python 3's
class hierarchy splits it: only `exc` values (carrying `str(e)`) are
instances of `Exception`; `KeyboardInterrupt`, `SystemExit` and (since
Python 3.8) `asyncio.CancelledError` derive from `BaseException` directly. -/
inductive PyExc where
  | keyboardInterrupt
  | systemExit (code : Int)
  | cancelledError
  | exc (msg : String)
deriving DecidableEq

/-- Whether `except Exception` catches this exception. -/
def PyExc.isExceptionClass : PyExc → Bool
  | .exc _ => true
  | _ => false

/-- The one thing the CLI observes about `auto_project_strikeouts`: applied
to (pitcher, opponent, park), the awaited call either returns an optional
dict or raises. -/
abbrev EngineCall := String → String → String → Except PyExc (Option Dict)

/-- `run_prediction` (`src/cli.py` lines 22-28) applied to the outcome of the
awaited call: `except Exception as e` catches exactly the `Exception`-class
instances, logs `f"Prediction failed: {str(e)}"` at error level (rendered
with the configured `"%(levelname)s: %(message)s"` format) and returns
`None`; every other exception propagates.  The returned pair carries the
log lines emitted inside the wrapper. -/
def run_prediction (call : Except PyExc (Option Dict)) :
    Except PyExc (Option Dict × List String) :=
  match call with
  | .ok r => .ok (r, [])
  | .error (.exc m) => .ok (none, ["ERROR: Prediction failed: " ++ m])
  | .error e => .error e

/-- What the user supplied on the command line, as far as the parser built by
`setup_parser` (`src/cli.py` lines 9-20) can observe: whether the `predict`
subcommand was given, which of its options were present, and whether the
`--debug` flag appeared (`store_true`: absent means false). -/
structure CmdLine where
  hasPredict : Bool
  pitcher : Option String
  opponent : Option String
  park : Option String
  debug : Bool
deriving DecidableEq

/-- The namespace `parse_args` returns on success. -/
structure Args where
  pitcher : String
  opponent : String
  park : String
  debug : Bool
deriving DecidableEq

/-- `parser.parse_args()` for the parser of `setup_parser`: the subcommand is
required, `--pitcher` and `--opponent` are required, and a missing required
item makes argparse print usage and exit with status 2 (raising
`SystemExit(2)`); `--park` defaults to `""`. -/
def parse_args (cl : CmdLine) : Except Int Args :=
  if ¬ cl.hasPredict then .error 2
  else
    match cl.pitcher with
    | none => .error 2
    | some p =>
      match cl.opponent with
      | none => .error 2
      | some o => .ok ⟨p, o, cl.park.getD "", cl.debug⟩

/-- The observable trace of one run of the coroutine `main`
(`src/cli.py` lines 45-58): whether `logging.basicConfig` ran (and with
which debug flag), whether the external engine was invoked (and with which
arguments), the log lines and `print` outputs produced, and the exception
escaping `main`, if any. -/
structure MainTrace where
  logConfigured : Option Bool
  engineCalled : Option (String × String × String)
  logs : List String
  stdout : List String
  raised : Option PyExc
deriving DecidableEq

/-- `main` (`src/cli.py` lines 45-58): parse the arguments (a parse failure
raises `SystemExit(2)` before logging is configured and before any engine
call), configure logging, await `run_prediction` and print the formatted
result.  An exception raised by `format_result` (a `KeyError` on a malformed
dict) is an `Exception`-class instance escaping `main`. -/
def main (cl : CmdLine) (call : EngineCall) : MainTrace :=
  match parse_args cl with
  | .error code =>
    { logConfigured := none, engineCalled := none, logs := [], stdout := [],
      raised := some (.systemExit code) }
  | .ok args =>
    match run_prediction (call args.pitcher args.opponent args.park) with
    | .error e =>
      { logConfigured := some args.debug,
        engineCalled := some (args.pitcher, args.opponent, args.park),
        logs := [], stdout := [], raised := some e }
    | .ok (r, logs) =>
      match format_result r with
      | .error e =>
        { logConfigured := some args.debug,
          engineCalled := some (args.pitcher, args.opponent, args.park),
          logs := logs, stdout := [],
          raised := some (.exc e.message) }
      | .ok s =>
        { logConfigured := some args.debug,
          engineCalled := some (args.pitcher, args.opponent, args.park),
          logs := logs, stdout := [s], raised := none }

/-- The observable outcome of the whole process: exit status, log lines,
`print` outputs, and an exception that escaped to the interpreter (which
prints a traceback for it), if any. -/
structure ProcResult where
  exitCode : Int
  logs : List String
  stdout : List String
  traceback : Option PyExc
deriving DecidableEq

/-- The `__main__` block (`src/cli.py` lines 60-67): `KeyboardInterrupt`
prints a cancellation notice and falls through (implicit exit 0);
an `Exception`-class escape is logged as `f"Fatal error: {str(e)}"` and the
process calls `exit(1)`; a `SystemExit` (such as argparse's usage error)
matches neither handler, so the interpreter exits with its code; any other
`BaseException` reaches the interpreter, which prints a traceback and exits
with status 1. -/
def run_program (cl : CmdLine) (call : EngineCall) : ProcResult :=
  let t := main cl call
  match t.raised with
  | none => ⟨0, t.logs, t.stdout, none⟩
  | some .keyboardInterrupt =>
    ⟨0, t.logs, t.stdout ++ ["\nOperation cancelled by user"], none⟩
  | some (.exc m) => ⟨1, t.logs ++ ["ERROR: Fatal error: " ++ m], t.stdout, none⟩
  | some (.systemExit c) => ⟨c, t.logs, t.stdout, none⟩
  | some e => ⟨1, t.logs, t.stdout, some e⟩

/-! ## Theorems settling the claims -/

/-- C1 (counterexample): the claim quantifies over every exception raised by
the external call, but a `KeyboardInterrupt` raised during the awaited call
is not an `Exception`-class instance, so `except Exception` does not catch
it: `run_prediction` propagates it to its caller instead of returning an
absent value. -/
theorem claim_C1_counterexample :
    run_prediction (Except.error PyExc.keyboardInterrupt)
      = Except.error PyExc.keyboardInterrupt
    ∧ exceptOk (run_prediction (Except.error PyExc.keyboardInterrupt)) = false :=
  ⟨rfl, rfl⟩

/-- C1 (amended): for every `Exception`-class exception raised by the
external call, `run_prediction` returns an absent value, never propagates
it, and emits exactly one error log line containing the exception's message
text. -/
theorem claim_C1_amended (m : String) :
    run_prediction (Except.error (PyExc.exc m))
      = Except.ok (none, ["ERROR: Prediction failed: " ++ m]) :=
  rfl

/-- C2: `format_result` is total over the declared optional keys — for every
mapping with the required keys `pitcher`, `opponent`, `mean` and any subset
of the four optional keys missing, formatting succeeds and the lines for the
missing keys carry the documented defaults: `"N/A"` for the Vegas line,
`"N/A"` for the edge, `0` rendered as `"0.0"` for the over-6.5 probability,
and the phrase `"Lineup source unknown"` for the lineup source. -/
theorem claim_C2_defaults (d : Dict) (p o : Val) (m : Rat)
    (hp : dlookup d "pitcher" = some p)
    (ho : dlookup d "opponent" = some o)
    (hm : dlookup d "mean" = some (Val.num m))
    (hprob : dlookup d "prob_over_6.5" = none
      ∨ ∃ q : Rat, dlookup d "prob_over_6.5" = some (Val.num q)) :
    exceptOk (format_output d) = true
    ∧ exceptOk (format_result (some d)) = true
    ∧ (dlookup d "vegas_line" = none → "Vegas Line: N/A" ∈ outputOf d)
    ∧ (dlookup d "edge" = none → "Edge: N/A" ∈ outputOf d)
    ∧ (dlookup d "prob_over_6.5" = none →
        "Over 6.5 Probability: 0.0%" ∈ outputOf d)
    ∧ (dlookup d "lineup_source" = none →
        "Key Stats: Lineup source unknown" ∈ outputOf d) := by
  have hne : d.isEmpty = false := by
    cases d with
    | nil => simp [dlookup] at hp
    | cons a t => rfl
  rcases hprob with hq | ⟨q, hq⟩ <;>
    refine ⟨?_, ?_, fun hvl => ?_, fun hed => ?_, fun hpr => ?_,
      fun hls => ?_⟩ <;>
    simp_all [exceptOk, format_result, format_output, outputOf,
      outputLines, hne] <;>
    first
      | rfl
      | exact List.Mem.tail _ (List.Mem.tail _ (List.Mem.head _))
      | exact List.Mem.tail _ (List.Mem.tail _ (List.Mem.tail _
          (List.Mem.head _)))
      | exact List.Mem.tail _ (List.Mem.tail _ (List.Mem.tail _
          (List.Mem.tail _ (List.Mem.head _))))
      | exact List.Mem.tail _ (List.Mem.tail _ (List.Mem.tail _
          (List.Mem.tail _ (List.Mem.tail _ (List.Mem.head _)))))

/-- C2 (witness): the theorem instantiated at a concrete mapping with the
three required keys and all four optional keys absent. -/
theorem claim_C2_witness :
    exceptOk (format_output [("pitcher", Val.str "Paul Skenes"),
        ("opponent", Val.str "PHI"), ("mean", Val.num (mkRat 73 10))]) = true
    ∧ exceptOk (format_result (some [("pitcher", Val.str "Paul Skenes"),
        ("opponent", Val.str "PHI"),
        ("mean", Val.num (mkRat 73 10))])) = true
    ∧ "Vegas Line: N/A" ∈ outputOf [("pitcher", Val.str "Paul Skenes"),
        ("opponent", Val.str "PHI"), ("mean", Val.num (mkRat 73 10))]
    ∧ "Edge: N/A" ∈ outputOf [("pitcher", Val.str "Paul Skenes"),
        ("opponent", Val.str "PHI"), ("mean", Val.num (mkRat 73 10))]
    ∧ "Over 6.5 Probability: 0.0%"
        ∈ outputOf [("pitcher", Val.str "Paul Skenes"),
            ("opponent", Val.str "PHI"), ("mean", Val.num (mkRat 73 10))]
    ∧ "Key Stats: Lineup source unknown"
        ∈ outputOf [("pitcher", Val.str "Paul Skenes"),
            ("opponent", Val.str "PHI"), ("mean", Val.num (mkRat 73 10))] := by
  obtain ⟨h1, h2, h3, h4, h5, h6⟩ := claim_C2_defaults
    [("pitcher", Val.str "Paul Skenes"), ("opponent", Val.str "PHI"),
      ("mean", Val.num (mkRat 73 10))]
    (Val.str "Paul Skenes") (Val.str "PHI") (mkRat 73 10)
    rfl rfl rfl (Or.inl rfl)
  exact ⟨h1, h2, h3 rfl, h4 rfl, h5 rfl, h6 rfl⟩

/-- C3: `format_result` applied to an absent result returns exactly the
fixed "no projection available" warning string. -/
theorem claim_C3_absent :
    format_result none = Except.ok "⚠️ No projection available" :=
  rfl

/-- C4: the scenario mapping with pitcher "Paul Skenes", opponent "PHI" and
mean 7.3 and no optional keys formats to the block whose lines are the
header, `Projected Ks: 7.3`, `Vegas Line: N/A`, `Edge: N/A`,
`Over 6.5 Probability: 0.0%` and `Key Stats: Lineup source unknown` (the
header line carries the leading newline the source's f-string starts
with). -/
theorem claim_C4_scenario :
    format_output [("pitcher", Val.str "Paul Skenes"),
        ("opponent", Val.str "PHI"), ("mean", Val.num (mkRat 73 10))]
      = Except.ok ["\n=== Paul Skenes vs PHI ===", "Projected Ks: 7.3",
          "Vegas Line: N/A", "Edge: N/A", "Over 6.5 Probability: 0.0%",
          "Key Stats: Lineup source unknown"]
    ∧ format_result (some [("pitcher", Val.str "Paul Skenes"),
        ("opponent", Val.str "PHI"), ("mean", Val.num (mkRat 73 10))])
      = Except.ok ("\n=== Paul Skenes vs PHI ===\nProjected Ks: 7.3\nVegas Line: N/A\nEdge: N/A\nOver 6.5 Probability: 0.0%\nKey Stats: Lineup source unknown") :=
  ⟨rfl, rfl⟩

/-- C5: for every invocation missing a required argument, argparse raises
`SystemExit(2)` out of the parse before logging is configured and before the
engine is invoked, and the process exits with the non-zero status 2. -/
theorem claim_C5_usage_failure (cl : CmdLine) (call : EngineCall)
    (hmiss : cl.pitcher = none ∨ cl.opponent = none) :
    (main cl call).engineCalled = none
    ∧ (main cl call).logConfigured = none
    ∧ (main cl call).raised = some (PyExc.systemExit 2)
    ∧ (run_program cl call).exitCode = 2
    ∧ (run_program cl call).exitCode ≠ 0 := by
  have hp : parse_args cl = .error 2 := by
    unfold parse_args
    rcases hmiss with h | h
    · rw [h]; cases cl.hasPredict <;> simp
    · cases hpit : cl.pitcher <;> cases cl.hasPredict <;> simp [h]
  simp [main, run_program, hp]

/-- C5 (witness): the theorem instantiated at an invocation omitting
`--pitcher`, with an engine that would return an absent projection. -/
theorem claim_C5_witness :
    (main ⟨true, none, some "PHI", none, false⟩
        (fun _ _ _ => Except.ok none)).engineCalled = none
    ∧ (main ⟨true, none, some "PHI", none, false⟩
        (fun _ _ _ => Except.ok none)).logConfigured = none
    ∧ (main ⟨true, none, some "PHI", none, false⟩
        (fun _ _ _ => Except.ok none)).raised = some (PyExc.systemExit 2)
    ∧ (run_program ⟨true, none, some "PHI", none, false⟩
        (fun _ _ _ => Except.ok none)).exitCode = 2
    ∧ (run_program ⟨true, none, some "PHI", none, false⟩
        (fun _ _ _ => Except.ok none)).exitCode ≠ 0 :=
  claim_C5_usage_failure _ _ (Or.inl rfl)

/-- C6 (counterexample): on an invocation missing `--pitcher`, the uncaught
exception escaping `main` is `SystemExit(2)` — not a user interrupt — yet
the process exits with status 2, not 1, and nothing is logged as fatal:
`except Exception` does not catch a `SystemExit`. -/
theorem claim_C6_counterexample :
    (main ⟨true, none, some "PHI", none, false⟩
        (fun _ _ _ => Except.ok none)).raised = some (PyExc.systemExit 2)
    ∧ run_program ⟨true, none, some "PHI", none, false⟩
        (fun _ _ _ => Except.ok none)
      = ⟨2, [], [], none⟩ :=
  ⟨rfl, rfl⟩

/-- C6 (amended): exit status 0 on normal completion, including a null
projection rendered as the warning message; an uncaught exception of class
`Exception` (other than a user interrupt) is logged as fatal and the
process exits with status 1; a user interrupt prints a cancellation notice
and terminates cleanly without an explicit exit code; a `SystemExit`
(such as argparse's usage error) propagates with its own code instead. -/
theorem claim_C6_amended (cl : CmdLine) (call : EngineCall) (p o m : String) :
    ((main cl call).raised = none → (run_program cl call).exitCode = 0)
    ∧ run_program ⟨true, some p, some o, none, false⟩
        (fun _ _ _ => Except.ok none)
      = ⟨0, [], [noProjection], none⟩
    ∧ ((main cl call).raised = some (PyExc.exc m) →
        (run_program cl call).exitCode = 1
        ∧ ("ERROR: Fatal error: " ++ m) ∈ (run_program cl call).logs)
    ∧ ((main cl call).raised = some PyExc.keyboardInterrupt →
        (run_program cl call).exitCode = 0
        ∧ "\nOperation cancelled by user" ∈ (run_program cl call).stdout) := by
  refine ⟨?_, rfl, ?_, ?_⟩ <;> intro h <;> simp [run_program, h]

/-- C6 (witness): the amended theorem instantiated at a malformed-result run
(a `KeyError` escapes `main` and is logged as fatal with exit 1), an
interrupted run (cancellation notice, exit 0), and a null-projection run
(exit 0). -/
theorem claim_C6_witness :
    (run_program ⟨true, some "Paul Skenes", some "PHI", none, false⟩
        (fun _ _ _ => Except.ok (some [("x", Val.str "y")]))).exitCode = 1
    ∧ ("ERROR: Fatal error: " ++ "'pitcher'")
        ∈ (run_program ⟨true, some "Paul Skenes", some "PHI", none, false⟩
            (fun _ _ _ => Except.ok (some [("x", Val.str "y")]))).logs
    ∧ (run_program ⟨true, some "Paul Skenes", some "PHI", none, false⟩
        (fun _ _ _ => Except.error PyExc.keyboardInterrupt)).exitCode = 0
    ∧ "\nOperation cancelled by user"
        ∈ (run_program ⟨true, some "Paul Skenes", some "PHI", none, false⟩
            (fun _ _ _ => Except.error PyExc.keyboardInterrupt)).stdout
    ∧ (run_program ⟨true, some "Paul Skenes", some "PHI", none, false⟩
        (fun _ _ _ => Except.ok none)).exitCode = 0 := by
  obtain ⟨_, h2, h3, _⟩ := claim_C6_amended
    ⟨true, some "Paul Skenes", some "PHI", none, false⟩
    (fun _ _ _ => Except.ok (some [("x", Val.str "y")]))
    "Paul Skenes" "PHI" "'pitcher'"
  obtain ⟨_, _, _, g4⟩ := claim_C6_amended
    ⟨true, some "Paul Skenes", some "PHI", none, false⟩
    (fun _ _ _ => Except.error PyExc.keyboardInterrupt)
    "Paul Skenes" "PHI" "x"
  obtain ⟨k1, k2⟩ := h3 rfl
  obtain ⟨c1, c2⟩ := g4 rfl
  exact ⟨k1, k2, c1, c2, by rw [h2]⟩

/-- C7: the `predict` subcommand requires `--pitcher` and `--opponent`
(a missing one makes parsing fail with argparse's usage exit), and the
optional fields default as stated when omitted: `--park` to the empty
string and `--debug` (a `store_true` flag, absent on the command line) to
false. -/
theorem claim_C7_parser_contract :
    (∀ p o : String,
        parse_args ⟨true, some p, some o, none, false⟩
          = Except.ok ⟨p, o, "", false⟩)
    ∧ (∀ cl : CmdLine, cl.pitcher = none → parse_args cl = Except.error 2)
    ∧ (∀ cl : CmdLine, cl.opponent = none → parse_args cl = Except.error 2) := by
  refine ⟨fun p o => rfl, fun cl h => ?_, fun cl h => ?_⟩
  · unfold parse_args; rw [h]; cases cl.hasPredict <;> simp
  · unfold parse_args; cases hpit : cl.pitcher <;> cases cl.hasPredict <;>
      simp [h]

/-- C7 (witness): the parser contract at concrete invocations. -/
theorem claim_C7_witness :
    parse_args ⟨true, some "Paul Skenes", some "PHI", none, false⟩
      = Except.ok ⟨"Paul Skenes", "PHI", "", false⟩
    ∧ parse_args ⟨true, none, some "PHI", none, false⟩ = Except.error 2
    ∧ parse_args ⟨true, some "Paul Skenes", none, none, false⟩
      = Except.error 2 :=
  ⟨claim_C7_parser_contract.1 "Paul Skenes" "PHI",
   claim_C7_parser_contract.2.1 _ rfl,
   claim_C7_parser_contract.2.2 _ rfl⟩

/-- C8: a present but empty mapping is falsy, so `if not result` takes the
warning branch: `format_result` returns the same fixed warning string as
for an absent result and never reaches the field-formatting code. -/
theorem claim_C8_empty_dict :
    format_result (some ([] : Dict)) = Except.ok noProjection
    ∧ format_result (some ([] : Dict)) = format_result none :=
  ⟨rfl, rfl⟩

/-- C9: for every non-empty mapping lacking one of the required keys
`pitcher`, `opponent` or `mean`, formatting raises a `KeyError` on a
required key instead of substituting a default. -/
theorem claim_C9_required_keys (d : Dict) (hne : d ≠ [])
    (hmiss : dlookup d "pitcher" = none ∨ dlookup d "opponent" = none
      ∨ dlookup d "mean" = none) :
    requiredKeyError (format_result (some d)) = true := by
  have hempty : d.isEmpty = false := by
    cases d with
    | nil => exact absurd rfl hne
    | cons a t => rfl
  rcases hp : dlookup d "pitcher" with _ | p
  · simp [format_result, format_output, hempty, hp, requiredKeyError]
    rfl
  rcases ho : dlookup d "opponent" with _ | o
  · simp [format_result, format_output, hempty, hp, ho, requiredKeyError]
    rfl
  rcases hm : dlookup d "mean" with _ | mv
  · simp [format_result, format_output, hempty, hp, ho, hm, requiredKeyError]
    rfl
  · rcases hmiss with h | h | h <;> simp_all

/-- C9 (witness): the theorem at a non-empty mapping holding only an
optional key. -/
theorem claim_C9_witness :
    requiredKeyError
      (format_result (some [("lineup_source", Val.str "manual")])) = true :=
  claim_C9_required_keys _ (by simp) (Or.inl rfl)

/-- C10: `run_prediction`'s containment boundary catches only the
`Exception` class — an exception outside it, such as `KeyboardInterrupt` or
`asyncio.CancelledError` raised during the awaited call, propagates out of
`run_prediction` uncaught and escapes `main` to the top-level entry
point. -/
theorem claim_C10_containment (e : PyExc) (h : e.isExceptionClass = false)
    (p o : String) :
    run_prediction (Except.error e) = Except.error e
    ∧ (main ⟨true, some p, some o, none, false⟩
        (fun _ _ _ => Except.error e)).raised = some e := by
  cases e <;> simp_all [run_prediction, main, parse_args,
    PyExc.isExceptionClass]

/-- C10 (witness): the boundary at an asyncio cancellation. -/
theorem claim_C10_witness :
    run_prediction (Except.error PyExc.cancelledError)
      = Except.error PyExc.cancelledError
    ∧ (main ⟨true, some "Paul Skenes", some "PHI", none, false⟩
        (fun _ _ _ => Except.error PyExc.cancelledError)).raised
      = some PyExc.cancelledError :=
  claim_C10_containment PyExc.cancelledError rfl "Paul Skenes" "PHI"

end StrikeoutCli
